import Mathlib

/-!
Verification development for the supermarket ordering agent.

The Python sources modelled here are:
  * `agent_langgraph_simple.py` — the checkout tool `finalizar_pedido_tool`
    and the fallback response synthesizer inside `run_agent_langgraph`;
  * `tools/db_vector_search.py` — `search_products_vector`,
    `_extract_ean_and_name` and `_format_results`.

Modelling conventions:
  * Python `float` values are modelled as `ℚ` (all constants appearing in the
    program are decimal, hence exact in `ℚ`).
  * Python strings are Lean `String`s; the string operations used by the code
    (`in`, `lower`, `strip`, `split`, slicing, `startswith`, `replace`) are
    re-implemented below over `List Char` so that they compute by kernel
    reduction.  `lower` is modelled on the ASCII and Latin-1 letter ranges,
    which covers every character this program compares case-insensitively.
  * External collaborators (Redis cart store, HTTP order API, embedding
    service, pgvector index) are universally quantified function parameters;
    the JSON serialization handed to the order API is kept structural
    (`OrderPayload`), since the program never inspects the serialized text.
-/

/-! ## Python-style string primitives (over `List Char`) -/

/-- Lower-casing of one character as Python `str.lower` acts on the ASCII and
Latin-1 ranges (the only characters this program lower-cases). -/
def pyLowerChar (c : Char) : Char :=
  if 'A' ≤ c ∧ c ≤ 'Z' then Char.ofNat (c.toNat + 32)
  else if 0xC0 ≤ c.toNat ∧ c.toNat ≤ 0xDE ∧ c.toNat ≠ 0xD7 then Char.ofNat (c.toNat + 32)
  else c

/-- Python `s.lower()`. -/
def pyLower (s : String) : String := String.mk (s.data.map pyLowerChar)

/-- Does `pat` occur at the start of `s`? (helper for substring search). -/
def listHasPfx : List Char → List Char → Bool
  | [], _ => true
  | _ :: _, [] => false
  | a :: as, b :: bs => a == b && listHasPfx as bs

/-- Does `pat` occur somewhere in `s`? (helper for Python `in`). -/
def containsChars (pat : List Char) : List Char → Bool
  | [] => pat.isEmpty
  | c :: cs => listHasPfx pat (c :: cs) || containsChars pat cs

/-- Python `pat in s` (substring containment). -/
def containsSub (s pat : String) : Bool := containsChars pat.data s.data

/-- Python `s.startswith(pat)`. -/
def strStartsWith (s pat : String) : Bool := listHasPfx pat.data s.data

/-- Python `s.strip()` (whitespace at both ends). -/
def pyStrip (s : String) : String :=
  String.mk (((s.data.dropWhile Char.isWhitespace).reverse.dropWhile Char.isWhitespace).reverse)

/-- Split a character list at every character satisfying `p`, keeping empty
segments (as Python `str.split(sep)` does). -/
def splitIfChar (p : Char → Bool) : List Char → List (List Char)
  | [] => [[]]
  | x :: xs =>
    let r := splitIfChar p xs
    if p x then [] :: r
    else
      match r with
      | h :: t => (x :: h) :: t
      | [] => [[x]]

/-- Python `s.split("\n")`. -/
def pySplitNl (s : String) : List String :=
  (splitIfChar (fun c => c == '\n') s.data).map String.mk

/-- Python `s.split()` (split on whitespace runs, dropping empty words). -/
def pySplitWs (s : String) : List String :=
  ((splitIfChar Char.isWhitespace s.data).filter (fun w => w ≠ [])).map String.mk

/-- Python `s.replace(" ", "")`. -/
def removeSpaces (s : String) : String :=
  String.mk (s.data.filter (fun c => !(c == ' ')))

/-- Python `sep.join(parts)`. -/
def joinWith (sep : String) : List String → String
  | [] => ""
  | [x] => x
  | x :: y :: t => x ++ sep ++ joinWith sep (y :: t)

/-- Python `s.split(":", 2)` (at most two splits, hence at most three parts). -/
def splitColon2 (s : String) : List String :=
  match splitIfChar (fun c => c == ':') s.data with
  | [] => [s]
  | [a] => [String.mk a]
  | [a, b] => [String.mk a, String.mk b]
  | a :: b :: rest => [String.mk a, String.mk b, joinWith ":" (rest.map String.mk)]

/-- Consume the literal `pat` at the head of `cs`, returning the remainder. -/
def stripPfxChars : List Char → List Char → Option (List Char)
  | [], cs => some cs
  | _ :: _, [] => none
  | p :: ps, c :: cs => if c == p then stripPfxChars ps cs else none

/-! ## Rounding and fixed-point formatting (Python `round` / `f"{x:.df}"`) -/

/-- Floor of a rational, via Euclidean integer division (`q.den > 0`). -/
def floorQ (q : ℚ) : ℤ := q.num / (q.den : ℤ)

/-- Truncation toward zero, as Python `int(float)`. -/
def truncQ (q : ℚ) : ℤ :=
  if 0 ≤ q.num then q.num / (q.den : ℤ) else -((-q.num) / (q.den : ℤ))

/-- Round to the nearest integer, ties to even — the rounding of Python's
`round` and `format` on the (here exact) decimal values the program uses. -/
def roundHalfEven (q : ℚ) : ℤ :=
  let f := floorQ q
  let r := q - (f : ℚ)
  if r < 1/2 then f
  else if 1/2 < r then f + 1
  else if f % 2 = 0 then f else f + 1

/-- Python `round(x, 2)`. -/
def round2 (q : ℚ) : ℚ := (roundHalfEven (q * 100) : ℚ) / 100

/-- Render `n` as a fixed-point decimal string with `d` fractional digits
(the integer `n` being the value scaled by `10^d`). -/
def formatFixedInt (n : ℤ) (d : ℕ) : String :=
  let sign := if n < 0 then "-" else ""
  let m := n.natAbs
  let ip := m / 10 ^ d
  let fp := m % 10 ^ d
  let fpStr := toString fp
  let pad := String.mk (List.replicate (d - fpStr.data.length) '0')
  sign ++ toString ip ++ "." ++ pad ++ fpStr

/-- Python `f"{q:.df}"` for the nonnegative decimal values this program
formats. -/
def formatFixed (q : ℚ) (d : ℕ) : String := formatFixedInt (roundHalfEven (q * (10 : ℚ) ^ d)) d

/-! ## Checkout engine (`finalizar_pedido_tool`) -/

/-- One cart line item, as built by `add_item_tool` and stored in Redis:
`{"produto": ..., "quantidade": ..., "unidades": ..., "observacao": ...,
"preco": ...}`. -/
structure CartItem where
  produto : String
  quantidade : ℚ
  unidades : ℤ
  observacao : String
  preco : ℚ
deriving DecidableEq, Repr

/-- One entry of the `itens` list in the order payload
(`itens_formatados.append({...})`). -/
structure FormattedItem where
  nome_produto : String
  quantidade : ℤ
  preco_unitario : ℚ
  observacao : String
deriving DecidableEq, Repr

/-- The order payload handed to `pedidos` (the JSON serialization is kept
structural; the program never re-reads the serialized text). -/
structure OrderPayload where
  nome_cliente : String
  telefone : String
  endereco : String
  forma : String
  observacao : String
  itens : List FormattedItem
deriving DecidableEq, Repr

/-- The per-item formatting step of `finalizar_pedido_tool` (lines 147-177):
weight-tracked items (`unidades > 0`) are submitted by unit count with a
generated weight note appended to the existing note; unit items submit
`int(quantidade)` coerced to 1 when fractional or below 1. -/
def formatItem (item : CartItem) : FormattedItem :=
  let preco := item.preco
  let quantidade := item.quantidade
  let unidades := item.unidades
  let obs_item := item.observacao
  if unidades > 0 then
    let valor_estimado := round2 (preco * quantidade)
    let obs_peso := "Peso estimado: " ++ formatFixed quantidade 3 ++ "kg (~R$"
      ++ formatFixed valor_estimado 2 ++ "). PESAR para confirmar valor."
    { nome_produto := item.produto
      quantidade := unidades
      preco_unitario := round2 preco
      observacao := if obs_item ≠ "" then obs_item ++ ". " ++ obs_peso else obs_peso }
  else
    { nome_produto := item.produto
      quantidade := if quantidade < 1 ∨ quantidade ≠ (truncQ quantidade : ℚ) then 1
                    else truncQ quantidade
      preco_unitario := round2 preco
      observacao := obs_item }

/-- The success test of `finalizar_pedido_tool` (line 192):
`"sucesso" in result.lower() or "✅" in result`. -/
def indicatesSuccess (result : String) : Bool :=
  containsSub (pyLower result) "sucesso" || containsSub result "✅"

/-- Everything observable about one run of `finalizar_pedido_tool`: the string
returned to the agent, the payloads sent to the order API, whether the two
Redis collaborators were invoked, and the cart contents afterwards. -/
structure FinalizeResult where
  output : String
  pedidosCalls : List OrderPayload
  clearCalled : Bool
  markCalled : Bool
  cartAfter : List CartItem
deriving DecidableEq, Repr

/-- Model of `finalizar_pedido_tool` (lines 125-201), with the order API `pedidos` and
the cart contents `cart` (the value `get_cart_items(telefone)` returns) as
parameters. -/
def finalizar_pedido (pedidos : OrderPayload → String) (cart : List CartItem)
    (cliente telefone endereco forma_pagamento observacao : String) : FinalizeResult :=
  if cart.isEmpty then
    { output := "❌ O carrinho está vazio! Adicione itens antes de finalizar."
      pedidosCalls := []
      clearCalled := false
      markCalled := false
      cartAfter := cart }
  else
    let itens_formatados := cart.map formatItem
    let payload : OrderPayload :=
      { nome_cliente := cliente
        telefone := telefone
        endereco := if endereco = "" then "A combinar" else endereco
        forma := forma_pagamento
        observacao := if observacao = "" then "" else observacao
        itens := itens_formatados }
    let result := pedidos payload
    let ok := indicatesSuccess result
    { output := result
      pedidosCalls := [payload]
      clearCalled := ok
      markCalled := ok
      cartAfter := if ok then [] else cart }

/-! ## Fallback response synthesizer (`run_agent_langgraph`, lines 449-530)

The fallback scans every tool-output string of the turn, accumulating the
signal list `tool_results` and the three capture lists, then resolves the
reply by a fixed if/elif chain. -/

/-- The single-quote character, used by the batch-search success pattern. -/
def quoteCh : Char := Char.ofNat 39

/-- Match the regex `Sucesso com '([^']+)' \((R\$ [0-9.,]+)\)` at the head of
`cs`, returning the two captures.  (`[^']+` and `[0-9.,]+` are greedy and
followed by a character outside their class, so the maximal run is the only
candidate — no backtracking is possible.) -/
def matchSucesso (cs : List Char) : Option (String × String) :=
  match stripPfxChars ("Sucesso com ".data ++ [quoteCh]) cs with
  | none => none
  | some r1 =>
    let prod := r1.takeWhile (fun c => !(c == quoteCh))
    if prod = [] then none
    else
      match stripPfxChars ([quoteCh] ++ " (R$ ".data) (r1.drop prod.length) with
      | none => none
      | some r2 =>
        let num := r2.takeWhile (fun c => c.isDigit || c == '.' || c == ',')
        if num = [] then none
        else
          match r2.drop num.length with
          | c :: _ => if c == ')' then some (String.mk prod, "R$ " ++ String.mk num) else none
          | [] => none

/-- Search of the batch-success pattern: first match, scanning left to
right. -/
def searchSucessoAux : List Char → Option (String × String)
  | [] => none
  | c :: cs =>
    match matchSucesso (c :: cs) with
    | some pr => some pr
    | none => searchSucessoAux cs

/-- Model of `re.search(r"Sucesso com '([^']+)' \((R\$ [0-9.,]+)\)", content)`. -/
def searchSucesso (content : String) : Option (String × String) :=
  searchSucessoAux content.data

/-- Match the regex `\d+\) \d+ - ([A-Z][^\n;]+)` at the head of `cs`,
returning the capture and the remainder after the match. -/
def matchEanName (cs : List Char) : Option (String × List Char) :=
  let d1 := cs.takeWhile Char.isDigit
  if d1 = [] then none
  else
    match stripPfxChars ") ".data (cs.drop d1.length) with
    | none => none
    | some r2 =>
      let d2 := r2.takeWhile Char.isDigit
      if d2 = [] then none
      else
        match stripPfxChars " - ".data (r2.drop d2.length) with
        | none => none
        | some r4 =>
          match r4 with
          | [] => none
          | c :: rest =>
            if 'A' ≤ c ∧ c ≤ 'Z' then
              let body := rest.takeWhile (fun x => !(x == '\n' || x == ';'))
              if body = [] then none
              else some (String.mk (c :: body), rest.drop body.length)
            else none

/-- Model of `re.findall(r'\d+\) \d+ - ([A-Z][^\n;]+)', content)`: all non-overlapping
matches, scanning left to right (fuel = input length; every match consumes at
least one character). -/
def findallEanAux : ℕ → List Char → List String
  | 0, _ => []
  | _, [] => []
  | n + 1, c :: cs =>
    match matchEanName (c :: cs) with
    | some (cap, rest) => cap :: findallEanAux n rest
    | none => findallEanAux n cs

/-- The product names captured from an `EANS_ENCONTRADOS` tool output. -/
def findallEanNames (content : String) : List String :=
  findallEanAux content.data.length content.data

/-- Price lines captured from a `PRODUTOS_ENCONTRADOS:` tool output:
stripped lines starting with `"• "` and containing `R$` (also after removing
spaces), with the bullet sliced off. -/
def extractPrecoLines (content : String) : List String :=
  (pySplitNl content).filterMap fun ln =>
    let ln_str := pyStrip ln
    if strStartsWith ln_str "• " ∧
        (containsSub ln_str "R$" ∨ containsSub (removeSpaces ln_str) "R$") then
      some (pyStrip (String.mk (ln_str.data.drop 2)))
    else none

/-- Names captured from a `NÃO_ENCONTRADOS:` tool output: the text after the
first colon, comma-split, stripped, empties dropped.  (`split(":", 1)[1]`
raises when no colon exists — guarded by the marker, which contains one.) -/
def extractNaoNames (content : String) : List String :=
  match splitIfChar (fun c => c == ':') content.data with
  | [] => []
  | [_] => []
  | _ :: rest =>
    ((joinWith ":" (rest.map String.mk)).data |> splitIfChar (fun c => c == ','))
      |>.map (fun w => pyStrip (String.mk w)) |>.filter (fun w => w ≠ "")

/-- The accumulator of the fallback scan: `tool_results`,
`produtos_encontrados`, `precos_encontrados`, `nao_encontrados_list`. -/
structure SynthState where
  tool_results : List String
  produtos_encontrados : List String
  precos_encontrados : List String
  nao_encontrados_list : List String
deriving DecidableEq, Repr

/-- The empty accumulator. -/
def initSynth : SynthState := ⟨[], [], [], []⟩

/-- Classification of one tool-output string (the elif chain of lines
455-489), updating the accumulator. -/
def processContent (st : SynthState) (content : String) : SynthState :=
  if containsSub content "0 item" ∨ containsSub content "disponíveis após filtragem" ∨
      containsSub content "[]" then
    { st with tool_results := st.tool_results ++ ["sem_estoque"] }
  else if containsSub content "EANS_ENCONTRADOS" then
    { st with tool_results := st.tool_results ++ ["ean_encontrado"]
              produtos_encontrados :=
                st.produtos_encontrados ++ (findallEanNames content).take 3 }
  else if containsSub content "Nenhum produto encontrado" ∨
      containsSub (pyLower content) "não encontrado" then
    { st with tool_results := st.tool_results ++ ["nao_encontrado"] }
  else if containsSub content "PRODUTOS_ENCONTRADOS:" then
    { st with tool_results := st.tool_results ++ ["busca_lote_ok"]
              precos_encontrados := st.precos_encontrados ++ extractPrecoLines content }
  else if containsSub content "NÃO_ENCONTRADOS:" ∨ containsSub content "NAO_ENCONTRADOS:" then
    { st with nao_encontrados_list := st.nao_encontrados_list ++ extractNaoNames content }
  else if containsSub content "✅ [BUSCA LOTE] Sucesso" then
    match searchSucesso content with
    | some (prod, preco) =>
      { st with tool_results := st.tool_results ++ ["sucesso:" ++ prod ++ ":" ++ preco] }
    | none => st
  else st

/-- Scan of the whole turn's tool outputs. -/
def scanState (outputs : List String) : SynthState :=
  outputs.foldl processContent initSynth

/-- Rendering `_, prod, preco = r.split(":", 2); f"{prod} - {preco}"` for a recorded
success entry.  (Entries recorded by the scanner always contain at least two
colons, so the fallback arm is unreachable.) -/
def sucessoItem (r : String) : String :=
  match splitColon2 r with
  | [_, prod, preco] => prod ++ " - " ++ preco
  | _ => ""

/-- The guard of resolution rule 1:
`any(r.startswith("sucesso:") ...) or ("busca_lote_ok" in tool_results and
precos_encontrados)`. -/
def successSignal (st : SynthState) : Bool :=
  st.tool_results.any (fun r => strStartsWith r "sucesso:") ||
    (st.tool_results.contains "busca_lote_ok" && !st.precos_encontrados.isEmpty)

/-- The `itens_ok` list of rule 1. -/
def itensOk (st : SynthState) : List String :=
  st.precos_encontrados ++
    st.tool_results.filterMap fun r =>
      if strStartsWith r "sucesso:" then some (sucessoItem r) else none

/-- The reply built by rule 1 when `itens_ok` is non-empty. -/
def successReply (st : SynthState) : String :=
  let linhas := "Aqui estão os valores:" :: (itensOk st).map (fun ln => "* " ++ ln)
  let linhas := if st.nao_encontrados_list ≠ [] then
      linhas ++ ["\nNão encontrei: " ++ joinWith ", " st.nao_encontrados_list ++ "."]
    else linhas
  joinWith "\n" (linhas ++ ["Quer que eu adicione ao carrinho?"])

/-- The reply of rule 2 (empty stock). -/
def stockReply (st : SynthState) : String :=
  if st.produtos_encontrados ≠ [] then
    "Não temos esse produto disponível. Temos: "
      ++ joinWith ", " (st.produtos_encontrados.take 2) ++ ". Quer algum desses?"
  else "Não temos esse produto disponível no momento. Quer outro?"

/-- The resolution chain (lines 492-525). -/
def respond (st : SynthState) : String :=
  if successSignal st then
    if itensOk st ≠ [] then successReply st
    else "Não consegui obter os preços agora. Pode repetir?"
  else if st.tool_results.contains "sem_estoque" then stockReply st
  else if st.tool_results.contains "nao_encontrado" then
    "Não achei esse produto. Pode descrever de outra forma?"
  else "Desculpe, não consegui processar sua solicitação. Pode repetir?"

/-- The fallback response synthesizer: scan all tool outputs, then resolve. -/
def synthesize (outputs : List String) : String :=
  respond (scanState outputs)

/-! ## Query enhancer (`search_products_vector`, lines 76-153)

`TERM_TRANSLATIONS` is a Python dict iterated in insertion order; it is
modelled as an association list in source order.  The intermediate
`query.replace(...)` assignment in the translation loop is dead (immediately
overwritten by `f"{abbreviation} {query}"`) and is not modelled. -/

/-- The term-translation table, in source (dict insertion) order. -/
def TERM_TRANSLATIONS : List (String × String) :=
  [("absorvente", "abs"),
   ("achocolatado", "achoc"),
   ("refrigerante", "refrig"),
   ("amaciante", "amac"),
   ("desodorante", "desod"),
   ("shampoo", "sh"),
   ("condicionador", "cond"),
   ("hotdog", "pao hot dog maxpaes"),
   ("cachorro quente", "pao hot dog maxpaes"),
   ("cachorro-quente", "pao hot dog maxpaes"),
   ("musarela", "queijo mussarela"),
   ("muçarela", "queijo mussarela"),
   ("mussarela", "queijo mussarela"),
   ("presunto", "presunto fatiado"),
   ("creme crack", "bolacha cream cracker"),
   ("cream crack", "bolacha cream cracker"),
   ("cracker", "bolacha cream cracker"),
   ("guarana", "refrig guarana antarctica"),
   ("coca cola", "refrig coca cola"),
   ("coca-cola", "refrig coca cola"),
   ("fanta", "refrig fanta"),
   ("sprite", "refrig sprite"),
   ("açúcar", "acucar cristal"),
   ("açucar", "acucar cristal"),
   ("café", "cafe"),
   ("maçã", "maca"),
   ("feijão", "feijao")]

/-- The produce/meat/dairy keyword list, in source order. -/
def HORTIFRUTI_KEYWORDS : List String :=
  ["tomate", "cebola", "batata", "alface", "cenoura", "pepino", "pimentao",
   "abobora", "abobrinha", "berinjela", "beterraba", "brocolis", "couve",
   "espinafre", "repolho", "rucula", "agriao", "alho", "gengibre", "mandioca",
   "banana", "maca", "laranja", "limao", "abacaxi", "melancia", "melao",
   "uva", "morango", "manga", "mamao", "abacate", "goiaba", "pera", "pessego",
   "ameixa", "kiwi", "coco", "maracuja", "acerola", "caju", "pitanga",
   "cheiro verde", "coentro", "salsa", "cebolinha", "hortela", "manjericao",
   "alecrim", "tomilho", "oregano", "louro", "frango", "carne", "peixe",
   "ovo", "leite", "queijo", "manteiga", "iogurte"]

/-- Processed-food keywords suppressing the produce boost. -/
def PROCESSED_TERMS : List String :=
  ["doce", "suco", "molho", "extrato", "polpa", "geleia", "compota"]

/-- Stop words discarded by the low-confidence retry. -/
def STOP_WORDS : List String :=
  ["de", "da", "do", "para", "com", "sem", "um", "uma", "kg", "und", "pct"]

/-- The first translation entry whose term occurs in the lower-cased query
(the `for term, abbreviation in TERM_TRANSLATIONS.items(): if term in
query_lower: ... break` loop). -/
def translationHit (query_lower : String) : Option (String × String) :=
  TERM_TRANSLATIONS.find? (fun p => containsSub query_lower p.1)

/-- The first produce keyword occurring in the lower-cased query. -/
def firstHorti (query_lower : String) : Option String :=
  HORTIFRUTI_KEYWORDS.find? (fun k => containsSub query_lower k)

/-- Model of `is_processed = any(term in query_lower for term in PROCESSED_TERMS)`. -/
def isProcessed (query_lower : String) : Bool :=
  PROCESSED_TERMS.any (fun t => containsSub query_lower t)

/-- The category hint the boost step appends for keyword `k`. -/
def hintFor (query k : String) : String :=
  if k ∈ (["frango", "carne", "peixe"] : List String) then query ++ " açougue carnes"
  else if k ∈ (["ovo", "leite", "queijo", "manteiga", "iogurte"] : List String) then
    query ++ " laticínios"
  else query ++ " hortifruti legumes verduras frutas"

/-- The query enhancer: translation step, then (unconditionally, also after a
translation fired) the produce boost step, which overwrites `enhanced_query`
with `f"{query} <hint>"` when a produce keyword occurs and no processed-food
keyword does. -/
def enhance (query : String) : String :=
  let query_lower := pyLower query
  let enhanced :=
    match translationHit query_lower with
    | some p => p.2 ++ " " ++ query
    | none => query
  if isProcessed query_lower then enhanced
  else
    match firstHorti query_lower with
    | some k => hintFor query k
    | none => enhanced

/-! ## Hybrid retrieval: rows, low-confidence retry, result formatting -/

/-- The structured metadata of one result row (`codigo_ean` / `ean` /
`produto` / `nome`, each possibly absent; integer values are modelled by
their decimal string, matching the `str()` conversion the code applies). -/
structure Meta where
  codigo_ean : Option String
  ean : Option String
  produto : Option String
  nome : Option String
deriving DecidableEq, Repr

/-- One row returned by the `hybrid_search_v2` index query:
`(text, metadata, score)`. -/
structure Row where
  text : String
  metadata : Meta
  similarity : ℚ
deriving DecidableEq, Repr

/-- Model of `results[0].get("similarity", 0)` — only evaluated behind non-emptiness
guards in the code; the `[]` case is the `.get` default. -/
def topScore (rows : List Row) : ℚ :=
  match rows with
  | [] => 0
  | r :: _ => r.similarity

/-- One iteration of the retry loop (lines 225-234): the candidate word's
result set replaces the best pair only when it is non-empty and its top score
exceeds the current best by more than 0.05. -/
def retryStep (assign : String → List Row) (best : List Row × ℚ) (word : String) :
    List Row × ℚ :=
  let word_results := assign word
  if word_results ≠ [] ∧ best.2 + 0.05 < topScore word_results then
    (word_results, topScore word_results)
  else best

/-- The whole retry loop: fold over the words, starting from the original
results and their top score. -/
def retryResults (assign : String → List Row) (results : List Row)
    (words : List String) : List Row :=
  (words.foldl (retryStep assign) (results, topScore results)).1

/-- The word list of the retry: lower-cased whitespace-split query, words
shorter than 3 characters and stop words discarded. -/
def retryWords (query : String) : List String :=
  (pySplitWs (pyLower query)).filter
    (fun w => 3 ≤ w.data.length ∧ w ∉ STOP_WORDS)

/-- Match the regex `"codigo_ean":\s*"?(\d+)"?` at the head of `cs`.  (The
optional quote backtracks only when no digit follows it, in which case the
position fails altogether, since a quote is not a digit.) -/
def matchEanKey (cs : List Char) : Option String :=
  match stripPfxChars "\"codigo_ean\":".data cs with
  | none => none
  | some r1 =>
    let r2 := r1.dropWhile Char.isWhitespace
    match r2 with
    | [] => none
    | c :: rest =>
      if c == '"' then
        let ds := rest.takeWhile Char.isDigit
        if ds = [] then none else some (String.mk ds)
      else
        let ds := r2.takeWhile Char.isDigit
        if ds = [] then none else some (String.mk ds)

/-- Model of `re.search(r'"codigo_ean":\s*"?(\d+)"?', text)`. -/
def scanEanKey : List Char → Option String
  | [] => none
  | c :: cs =>
    match matchEanKey (c :: cs) with
    | some d => some d
    | none => scanEanKey cs

/-- Match the regex `"produto":\s*"([^"]+)"` at the head of `cs`. -/
def matchProdutoKey (cs : List Char) : Option String :=
  match stripPfxChars "\"produto\":".data cs with
  | none => none
  | some r1 =>
    let r2 := r1.dropWhile Char.isWhitespace
    match r2 with
    | [] => none
    | c :: rest =>
      if c == '"' then
        let body := rest.takeWhile (fun x => !(x == '"'))
        if body = [] then none
        else
          match rest.drop body.length with
          | x :: _ => if x == '"' then some (String.mk body) else none
          | [] => none
      else none

/-- Model of `re.search(r'"produto":\s*"([^"]+)"', text)`. -/
def scanProdutoKey : List Char → Option String
  | [] => none
  | c :: cs =>
    match matchProdutoKey (c :: cs) with
    | some d => some d
    | none => scanProdutoKey cs

/-- Model of `_extract_ean_and_name` (lines 250-292): metadata fields first, then
pattern extraction from the text when either is missing, then the truncated
text as a name fallback. -/
def extractEanName (r : Row) : String × String :=
  let m := r.metadata
  let ean0 := m.codigo_ean.getD (m.ean.getD "")
  let nome0 := m.produto.getD (m.nome.getD "")
  let ean1 :=
    if ean0 = "" ∨ nome0 = "" then
      match scanEanKey r.text.data with
      | some d => d
      | none => ean0
    else ean0
  let nome1 :=
    if ean0 = "" ∨ nome0 = "" then
      match scanProdutoKey r.text.data with
      | some n => n
      | none => nome0
    else nome0
  let nome2 :=
    if nome1 = "" ∧ r.text ≠ "" then String.mk (r.text.data.take 100) else nome1
  (ean1, nome2)

/-- One formatted output line: `f"{len(seen_eans)}) {ean} - {nome}"`. -/
def lineFor (n : ℕ) (p : String × String) : String :=
  toString n ++ ") " ++ p.1 ++ " - " ++ p.2

/-- One iteration of the `_format_results` loop over `(lines, seen_eans)`
(the seen set is modelled as the list of its elements, newest first; its
length is the set's size since only unseen EANs are added). -/
def fmtStep (acc : List String × List String) (row : Row) : List String × List String :=
  let p := extractEanName row
  if p.1 = "" ∨ acc.2.contains p.1 then acc
  else
    let seen2 := p.1 :: acc.2
    if p.1 ≠ "" ∧ p.2 ≠ "" then (acc.1 ++ [lineFor seen2.length p], seen2)
    else (acc.1, seen2)

/-- Model of `_format_results` (lines 295-319). -/
def formatResults (results : List Row) : String :=
  let acc := results.foldl fmtStep (["EANS_ENCONTRADOS:"], [])
  if acc.1.length = 1 then "Nenhum produto com EAN válido encontrado."
  else joinWith "\n" acc.1

/-- Model of `search_products_vector` (lines 48-246) after the connection and
collaborator boilerplate: `embedStr` is the embedding client composed with the
pgvector serialization, `fetch query_text embedding` is the
`hybrid_search_v2` call.  Returns the tool-output string together with the
list of strings sent to the embedding service (the enhanced query, then —
only when the low-confidence retry runs — each retry word).  The retry calls
`fetch` with the embedding string in both positions, as the code does. -/
def search_products_vector (embedStr : String → String)
    (fetch : String → String → List Row) (query0 : String) : String × List String :=
  let query := pyStrip query0
  if query = "" then ("Nenhum termo de busca informado.", [])
  else
    let enhanced := enhance query
    let results := fetch enhanced (embedStr enhanced)
    let words := retryWords query
    let retryRuns := results ≠ [] ∧ topScore results < 0.50 ∧ words ≠ []
    let results2 :=
      if retryRuns then
        retryResults (fun w => fetch (embedStr w) (embedStr w)) results words
      else results
    let embeds := if retryRuns then enhanced :: words else [enhanced]
    if results2 = [] then ("Nenhum produto encontrado com esse termo.", embeds)
    else (formatResults results2, embeds)

/-! ## Helper lemmas -/

/-- Substring containment is preserved by prepending text. -/
theorem containsChars_append_of_right (pat l1 l2 : List Char)
    (h : containsChars pat l2 = true) : containsChars pat (l1 ++ l2) = true := by
  induction l1 with
  | nil => simpa using h
  | cons c cs ih =>
    simp only [List.cons_append, containsChars, Bool.or_eq_true]
    exact Or.inr ih

/-- Containment via `containsSub` is preserved by prepending text. -/
theorem containsSub_append_right (a b pat : String)
    (h : containsSub b pat = true) : containsSub (a ++ b) pat = true := by
  unfold containsSub at h ⊢
  rw [String.data_append]
  exact containsChars_append_of_right _ _ _ h

/-- Truncation `truncQ` is the identity on integers. -/
theorem truncQ_intCast (n : ℤ) : truncQ ((n : ℚ)) = n := by
  simp only [truncQ, Rat.num_intCast, Rat.den_intCast, Nat.cast_one]
  split <;> omega

/-- Flooring `floorQ` is the identity on integers. -/
theorem floorQ_intCast (n : ℤ) : floorQ ((n : ℚ)) = n := by
  simp only [floorQ, Rat.num_intCast, Rat.den_intCast, Nat.cast_one]
  omega

/-- Rounding `roundHalfEven` is the identity on integers. -/
theorem roundHalfEven_intCast (n : ℤ) : roundHalfEven ((n : ℚ)) = n := by
  simp only [roundHalfEven, floorQ_intCast]
  norm_num

/-- Evaluation of the weight formatting at the C3 item
`{quantidade: 0.45, unidades: 3, preco: 4.00}`. -/
theorem formatItem_weightA (nome obs : String) :
    formatItem ⟨nome, 0.45, 3, obs, 4⟩ =
      { nome_produto := nome
        quantidade := 3
        preco_unitario := round2 4
        observacao := if obs ≠ "" then
            obs ++ ". " ++ "Peso estimado: 0.450kg (~R$1.80). PESAR para confirmar valor."
          else "Peso estimado: 0.450kg (~R$1.80). PESAR para confirmar valor." } := by
  have e1 : formatFixed (0.45 : ℚ) 3 = "0.450" := by
    have h : (0.45 : ℚ) * (10 : ℚ) ^ 3 = ((450 : ℤ) : ℚ) := by norm_num
    unfold formatFixed
    rw [h, roundHalfEven_intCast]
    decide
  have e2 : formatFixed (round2 ((4 : ℚ) * 0.45)) 2 = "1.80" := by
    have h1 : ((4 : ℚ) * 0.45) * 100 = ((180 : ℤ) : ℚ) := by norm_num
    have h2 : round2 ((4 : ℚ) * 0.45) = ((180 : ℤ) : ℚ) / 100 := by
      unfold round2
      rw [h1, roundHalfEven_intCast]
    have h3 : (((180 : ℤ) : ℚ) / 100) * (10 : ℚ) ^ 2 = ((180 : ℤ) : ℚ) := by
      push_cast
      norm_num
    unfold formatFixed
    rw [h2, h3, roundHalfEven_intCast]
    decide
  have hlit : "Peso estimado: " ++ "0.450" ++ "kg (~R$" ++ "1.80"
      ++ "). PESAR para confirmar valor."
      = "Peso estimado: 0.450kg (~R$1.80). PESAR para confirmar valor." := by decide
  simp only [formatItem, e1, e2, hlit]
  norm_num

/-- Evaluation of the unit formatting at the C3 item
`{quantidade: 2, unidades: 0, preco: 3.50}`. -/
theorem formatItem_unitB (nome obs : String) :
    formatItem ⟨nome, 2, 0, obs, 3.5⟩ =
      { nome_produto := nome
        quantidade := 2
        preco_unitario := round2 (3.5 : ℚ)
        observacao := obs } := by
  have ht : truncQ ((2 : ℚ)) = 2 := by
    rw [(by norm_num : (2 : ℚ) = ((2 : ℤ) : ℚ)), truncQ_intCast]
  have hc : ¬((2 : ℚ) < 1 ∨ (2 : ℚ) ≠ ((truncQ (2 : ℚ) : ℤ) : ℚ)) := by
    rw [ht]
    norm_num
  simp only [formatItem]
  rw [if_neg (by norm_num : ¬((0 : ℤ) > 0)), if_neg hc, ht]

/-! ## Claims C1–C4: checkout engine -/

/-- C1: for every cart and every order-API response, `finalizar_pedido_tool`
calls `clear_cart` and `mark_order_sent` exactly when the response indicates
success (`"sucesso" in result.lower() or "✅" in result`); on a
non-successful response neither call happens and the cart is unchanged. -/
theorem c1_finalize_commit_iff_success
    (pedidos : OrderPayload → String) (cart : List CartItem) (c t e f o : String) :
    ((finalizar_pedido pedidos cart c t e f o).clearCalled = true ↔
      indicatesSuccess (finalizar_pedido pedidos cart c t e f o).output = true)
    ∧ ((finalizar_pedido pedidos cart c t e f o).markCalled = true ↔
      indicatesSuccess (finalizar_pedido pedidos cart c t e f o).output = true)
    ∧ (indicatesSuccess (finalizar_pedido pedidos cart c t e f o).output = true →
      (finalizar_pedido pedidos cart c t e f o).cartAfter = [])
    ∧ (indicatesSuccess (finalizar_pedido pedidos cart c t e f o).output = false →
      (finalizar_pedido pedidos cart c t e f o).clearCalled = false
      ∧ (finalizar_pedido pedidos cart c t e f o).markCalled = false
      ∧ (finalizar_pedido pedidos cart c t e f o).cartAfter = cart) := by
  have hm : indicatesSuccess "❌ O carrinho está vazio! Adicione itens antes de finalizar."
      = false := by decide
  by_cases hc : cart.isEmpty
  · have hcart : cart = [] := by
      cases cart with
      | nil => rfl
      | cons a l => simp [List.isEmpty] at hc
    subst hcart
    simp [finalizar_pedido, hm]
  · simp only [finalizar_pedido, if_neg hc]
    cases hok : indicatesSuccess (pedidos
        { nome_cliente := c
          telefone := t
          endereco := if e = "" then "A combinar" else e
          forma := f
          observacao := if o = "" then "" else o
          itens := cart.map formatItem }) <;>
      simp [hok]

/-- C1 witness: a concrete one-item cart with a non-successful response. -/
theorem c1_finalize_commit_iff_success_witness :
    (finalizar_pedido (fun _ => "erro de rede") [⟨"arroz", 2, 0, "", 5⟩]
      "Ana" "85999" "Rua A" "PIX" "").clearCalled = false
    ∧ (finalizar_pedido (fun _ => "erro de rede") [⟨"arroz", 2, 0, "", 5⟩]
      "Ana" "85999" "Rua A" "PIX" "").cartAfter = [⟨"arroz", 2, 0, "", 5⟩] := by
  have h := c1_finalize_commit_iff_success (fun _ => "erro de rede")
    [⟨"arroz", 2, 0, "", 5⟩] "Ana" "85999" "Rua A" "PIX" ""
  have hfail : indicatesSuccess ((finalizar_pedido (fun _ => "erro de rede")
      [⟨"arroz", 2, 0, "", 5⟩] "Ana" "85999" "Rua A" "PIX" "").output) = false := by decide
  exact ⟨(h.2.2.2 hfail).1, (h.2.2.2 hfail).2.2⟩

/-- C2: on an empty cart, finalize returns the explicit empty-cart failure,
sends nothing to the order API, and calls neither `clear_cart` nor
`mark_order_sent`. -/
theorem c2_finalize_empty_cart
    (pedidos : OrderPayload → String) (cart : List CartItem) (c t e f o : String)
    (h : cart = []) :
    (finalizar_pedido pedidos cart c t e f o).output
      = "❌ O carrinho está vazio! Adicione itens antes de finalizar."
    ∧ (finalizar_pedido pedidos cart c t e f o).pedidosCalls = []
    ∧ (finalizar_pedido pedidos cart c t e f o).clearCalled = false
    ∧ (finalizar_pedido pedidos cart c t e f o).markCalled = false := by
  subst h
  exact ⟨rfl, rfl, rfl, rfl⟩

/-- C2 witness: the empty cart at concrete arguments. -/
theorem c2_finalize_empty_cart_witness :
    (finalizar_pedido (fun _ => "✅ sucesso") [] "Ana" "85999" "Rua A" "PIX" "").output
      = "❌ O carrinho está vazio! Adicione itens antes de finalizar."
    ∧ (finalizar_pedido (fun _ => "✅ sucesso") [] "Ana" "85999" "Rua A" "PIX" "").pedidosCalls
      = [] := by
  have h := c2_finalize_empty_cart (fun _ => "✅ sucesso") [] "Ana" "85999" "Rua A" "PIX" "" rfl
  exact ⟨h.1, h.2.1⟩

/-- C4: for a unit-tracked item (`unidades == 0`) the submitted quantity is an
integer `≥ 1`; it equals the requested quantity exactly when that quantity is
a positive whole number and is coerced to 1 otherwise, with the item note left
untouched. -/
theorem c4_unit_quantity_coercion (item : CartItem) (h : item.unidades = 0) :
    1 ≤ (formatItem item).quantidade
    ∧ ((1 ≤ item.quantidade ∧ ∃ n : ℤ, item.quantidade = (n : ℚ)) →
      (((formatItem item).quantidade : ℤ) : ℚ) = item.quantidade)
    ∧ ((item.quantidade < 1 ∨ ¬ ∃ n : ℤ, item.quantidade = (n : ℚ)) →
      (formatItem item).quantidade = 1)
    ∧ (formatItem item).observacao = item.observacao := by
  have hne : ¬(item.unidades > 0) := by omega
  by_cases hcond : item.quantidade < 1
      ∨ item.quantidade ≠ ((truncQ item.quantidade : ℤ) : ℚ)
  · refine ⟨?_, ?_, ?_, ?_⟩
    · simp only [formatItem, if_neg hne, if_pos hcond]
      omega
    · rintro ⟨h1, n, hn⟩
      exfalso
      rcases hcond with hlt | hne2
      · exact absurd h1 (not_le.mpr hlt)
      · apply hne2
        rw [hn, truncQ_intCast]
    · intro _
      simp only [formatItem, if_neg hne, if_pos hcond]
    · simp only [formatItem, if_neg hne]
  · push_neg at hcond
    obtain ⟨hge, heq⟩ := hcond
    have hcond' : ¬(item.quantidade < 1
        ∨ item.quantidade ≠ ((truncQ item.quantidade : ℤ) : ℚ)) := by
      push_neg
      exact ⟨hge, heq⟩
    refine ⟨?_, ?_, ?_, ?_⟩
    · simp only [formatItem, if_neg hne, if_neg hcond']
      have : (1 : ℚ) ≤ ((truncQ item.quantidade : ℤ) : ℚ) := by
        rw [← heq]
        exact hge
      exact_mod_cast this
    · intro _
      simp only [formatItem, if_neg hne, if_neg hcond']
      exact heq.symm
    · intro hbad
      exfalso
      rcases hbad with hlt | hnint
      · exact absurd hlt (not_lt.mpr hge)
      · exact hnint ⟨truncQ item.quantidade, heq⟩
    · simp only [formatItem, if_neg hne]

/-- C4 witness: the whole-number quantity 2 passes through unchanged. -/
theorem c4_unit_quantity_coercion_witness :
    (((formatItem ⟨"leite", 2, 0, "obs", 3⟩).quantidade : ℤ) : ℚ) = 2
    ∧ 1 ≤ (formatItem ⟨"leite", 2, 0, "obs", 3⟩).quantidade
    ∧ (formatItem ⟨"leite", 2, 0, "obs", 3⟩).observacao = "obs" := by
  have h := c4_unit_quantity_coercion ⟨"leite", 2, 0, "obs", 3⟩ rfl
  exact ⟨h.2.1 ⟨one_le_two, ⟨2, Int.cast_two.symm⟩⟩, h.1, h.2.2.2⟩

/-- C3: the weight-tracked item `{qty: 0.45, unitCount: 3, price: 4.00}` is
submitted with quantity 3 and a note containing `0.450` (kg) and `1.80`
(estimated value), any pre-existing note surviving as a prefix; the
unit-tracked item `{qty: 2, unitCount: 0, price: 3.50}` is submitted with
quantity 2 and no weight note. -/
theorem c3_weight_line_arithmetic (nomeA obsA nomeB obsB c t e f o : String)
    (pedidos : OrderPayload → String) :
    (formatItem ⟨nomeA, 0.45, 3, obsA, 4⟩).quantidade = 3
    ∧ containsSub (formatItem ⟨nomeA, 0.45, 3, obsA, 4⟩).observacao "0.450" = true
    ∧ containsSub (formatItem ⟨nomeA, 0.45, 3, obsA, 4⟩).observacao "1.80" = true
    ∧ (∃ rest : String, (formatItem ⟨nomeA, 0.45, 3, obsA, 4⟩).observacao = obsA ++ rest)
    ∧ (finalizar_pedido pedidos [⟨nomeA, 0.45, 3, obsA, 4⟩] c t e f o).pedidosCalls.map
        OrderPayload.itens = [[formatItem ⟨nomeA, 0.45, 3, obsA, 4⟩]]
    ∧ (formatItem ⟨nomeB, 2, 0, obsB, 3.5⟩).quantidade = 2
    ∧ (formatItem ⟨nomeB, 2, 0, obsB, 3.5⟩).observacao = obsB := by
  refine ⟨?_, ?_, ?_, ?_, rfl, ?_, ?_⟩
  · rw [formatItem_weightA]
  · rw [formatItem_weightA]
    by_cases h : obsA = ""
    · simp only [h]
      decide
    · simp only [if_pos (show obsA ≠ "" from h)]
      exact containsSub_append_right (obsA ++ ". ") _ _ (by decide)
  · rw [formatItem_weightA]
    by_cases h : obsA = ""
    · simp only [h]
      decide
    · simp only [if_pos (show obsA ≠ "" from h)]
      exact containsSub_append_right (obsA ++ ". ") _ _ (by decide)
  · rw [formatItem_weightA]
    by_cases h : obsA = ""
    · refine ⟨"Peso estimado: 0.450kg (~R$1.80). PESAR para confirmar valor.", ?_⟩
      simp only [h]
      exact (String.empty_append _).symm
    · refine ⟨". " ++ "Peso estimado: 0.450kg (~R$1.80). PESAR para confirmar valor.", ?_⟩
      simp only [if_pos (show obsA ≠ "" from h)]
      exact String.append_assoc _ _ _
  · rw [formatItem_unitB]
  · rw [formatItem_unitB]

/-! ## Claims C5–C6: fallback response synthesizer -/

/-- A string beginning with the literal `pre` differs from `t` whenever `pre`
is not an initial segment of `t`. -/
theorem append_ne_of_take_ne (pre rest t : String)
    (h : pre.data ≠ t.data.take pre.data.length) : pre ++ rest ≠ t := by
  intro contra
  apply h
  rw [← contra, String.data_append, List.take_left]

/-- C5: whenever a batch-search success with at least one captured price line
was recorded, the success reply wins even if an empty-stock signal was also
recorded; the empty-stock, not-found and generic branches are reached only
when no earlier rule matched, in that fixed order. -/
theorem c5_fallback_priority (outputs : List String) :
    ((scanState outputs).tool_results.contains "busca_lote_ok" = true →
      (scanState outputs).precos_encontrados ≠ [] →
      (scanState outputs).tool_results.contains "sem_estoque" = true →
      synthesize outputs = successReply (scanState outputs))
    ∧ (successSignal (scanState outputs) = false →
      (scanState outputs).tool_results.contains "sem_estoque" = true →
      synthesize outputs = stockReply (scanState outputs))
    ∧ (successSignal (scanState outputs) = false →
      (scanState outputs).tool_results.contains "sem_estoque" = false →
      (scanState outputs).tool_results.contains "nao_encontrado" = true →
      synthesize outputs = "Não achei esse produto. Pode descrever de outra forma?")
    ∧ (successSignal (scanState outputs) = false →
      (scanState outputs).tool_results.contains "sem_estoque" = false →
      (scanState outputs).tool_results.contains "nao_encontrado" = false →
      synthesize outputs
        = "Desculpe, não consegui processar sua solicitação. Pode repetir?") := by
  refine ⟨?_, ?_, ?_, ?_⟩
  · intro hb hp _
    have hsig : successSignal (scanState outputs) = true := by
      unfold successSignal
      rw [hb]
      cases hpe : (scanState outputs).precos_encontrados.isEmpty
      · simp
      · exact absurd (List.isEmpty_iff.mp hpe) hp
    have hok : itensOk (scanState outputs) ≠ [] := by
      unfold itensOk
      intro contra
      exact hp (List.append_eq_nil.mp contra).1
    unfold synthesize respond
    rw [if_pos hsig, if_pos hok]
  · intro hs hse
    unfold synthesize respond
    rw [hs]
    simp only [Bool.false_eq_true, if_false]
    rw [hse]
    simp
  · intro hs hse hne
    unfold synthesize respond
    rw [hs, hse, hne]
    simp
  · intro hs hse hne
    unfold synthesize respond
    rw [hs, hse, hne]
    simp

/-- C5 witness: a batch-success output with one price line plus an
empty-stock output resolve to the success reply. -/
theorem c5_fallback_priority_witness :
    synthesize ["PRODUTOS_ENCONTRADOS:\n• Arroz - R$ 25,90", "0 item disponível"]
      = "Aqui estão os valores:\n* Arroz - R$ 25,90\nQuer que eu adicione ao carrinho?" := by
  have h := (c5_fallback_priority
    ["PRODUTOS_ENCONTRADOS:\n• Arroz - R$ 25,90", "0 item disponível"]).1
    (by decide) (by decide) (by decide)
  exact h.trans (by decide)

/-- C6 counterexample: a batch-search success marker with no captured price
line does not produce the dedicated "could not retrieve prices" reply — rule
1 is never entered and the scan falls through to the generic failure reply. -/
theorem c6_counterexample :
    (scanState ["PRODUTOS_ENCONTRADOS:\nnada"]).tool_results.contains "busca_lote_ok" = true
    ∧ (scanState ["PRODUTOS_ENCONTRADOS:\nnada"]).precos_encontrados = []
    ∧ successSignal (scanState ["PRODUTOS_ENCONTRADOS:\nnada"]) = false
    ∧ synthesize ["PRODUTOS_ENCONTRADOS:\nnada"]
      = "Desculpe, não consegui processar sua solicitação. Pode repetir?"
    ∧ synthesize ["PRODUTOS_ENCONTRADOS:\nnada"]
      ≠ "Não consegui obter os preços agora. Pode repetir?" := by decide

/-- C6 (amended): when a batch-search success signal was recorded but no
price line and no single-item success entry was captured, the success rule is
not entered at all: `synthesize` falls through to the empty-stock, not-found
or generic-failure branch, and never returns the dedicated
"could not retrieve prices" reply (that branch is unreachable). -/
theorem c6_amended_no_price_fallthrough (outputs : List String)
    (hb : (scanState outputs).tool_results.contains "busca_lote_ok" = true)
    (hp : (scanState outputs).precos_encontrados = [])
    (hs : (scanState outputs).tool_results.any
      (fun r => strStartsWith r "sucesso:") = false) :
    successSignal (scanState outputs) = false
    ∧ synthesize outputs =
      (if (scanState outputs).tool_results.contains "sem_estoque" then
        stockReply (scanState outputs)
      else if (scanState outputs).tool_results.contains "nao_encontrado" then
        "Não achei esse produto. Pode descrever de outra forma?"
      else "Desculpe, não consegui processar sua solicitação. Pode repetir?")
    ∧ synthesize outputs ≠ "Não consegui obter os preços agora. Pode repetir?" := by
  have hsig : successSignal (scanState outputs) = false := by
    unfold successSignal
    rw [hs, hp]
    simp
  have hchain : synthesize outputs =
      (if (scanState outputs).tool_results.contains "sem_estoque" then
        stockReply (scanState outputs)
      else if (scanState outputs).tool_results.contains "nao_encontrado" then
        "Não achei esse produto. Pode descrever de outra forma?"
      else "Desculpe, não consegui processar sua solicitação. Pode repetir?") := by
    unfold synthesize respond
    rw [hsig]
    simp
  refine ⟨hsig, hchain, ?_⟩
  rw [hchain]
  by_cases h1 : (scanState outputs).tool_results.contains "sem_estoque" = true
  · rw [if_pos h1]
    unfold stockReply
    by_cases h2 : (scanState outputs).produtos_encontrados ≠ []
    · rw [if_pos h2, String.append_assoc]
      exact append_ne_of_take_ne _ _ _ (by decide)
    · rw [if_neg h2]
      decide
  · rw [if_neg h1]
    by_cases h2 : (scanState outputs).tool_results.contains "nao_encontrado" = true
    · rw [if_pos h2]
      decide
    · rw [if_neg h2]
      decide

/-- C6 witness: the fall-through at the concrete counterexample input. -/
theorem c6_amended_no_price_fallthrough_witness :
    synthesize ["PRODUTOS_ENCONTRADOS:\nsem linhas de preço"]
      ≠ "Não consegui obter os preços agora. Pode repetir?" := by
  exact (c6_amended_no_price_fallthrough ["PRODUTOS_ENCONTRADOS:\nsem linhas de preço"]
    (by decide) (by decide) (by decide)).2.2

/-! ## Claim C7: query enhancer -/

/-- The function `List.find?` returns the first element satisfying the predicate: the list
splits around the hit, with everything before it failing the predicate. -/
theorem find?_eq_some_split {α : Type} (p : α → Bool) (l : List α) (a : α)
    (h : l.find? p = some a) :
    p a = true ∧ ∃ l1 l2, l = l1 ++ a :: l2 ∧ ∀ x ∈ l1, p x = false := by
  induction l with
  | nil => simp at h
  | cons b bs ih =>
    cases hpb : p b
    · rw [List.find?_cons_of_neg _ (by simp [hpb])] at h
      obtain ⟨hpa, l1, l2, hsplit, hall⟩ := ih h
      refine ⟨hpa, b :: l1, l2, by rw [hsplit]; rfl, ?_⟩
      intro x hx
      rcases List.mem_cons.mp hx with hxb | hxl
      · rw [hxb]; exact hpb
      · exact hall x hxl
    · rw [List.find?_cons_of_pos _ hpb] at h
      obtain rfl := Option.some_injective _ h
      exact ⟨hpb, [], bs, rfl, by simp⟩

/-- C7 counterexample: for the query `"musarela e leite"` the translation
rule `musarela → queijo mussarela` fires, yet the category-boost step still
modifies the query, overwriting the translation with the dairy hint — the
enhanced query is not `"<abbreviation> <original raw query>"`. -/
theorem c7_counterexample :
    translationHit (pyLower "musarela e leite") = some ("musarela", "queijo mussarela")
    ∧ enhance "musarela e leite" = "musarela e leite laticínios"
    ∧ enhance "musarela e leite" ≠ "queijo mussarela" ++ " " ++ "musarela e leite" := by
  decide

/-- C7 (amended): at most one translation rule fires — the first
case-insensitive substring match in table order — and when it fires the
translation sets the enhanced query to `"<abbreviation> <original raw
query>"`; however, the category-boost step runs regardless of whether a
translation fired: whenever the query contains a produce/meat/dairy keyword
and no processed-food keyword, the final query is `"<original query>
<category hint>"`, overwriting any translation.  The translation (or the
unmodified query) survives only when the boost does not fire. -/
theorem c7_amended_enhancer (query : String) :
    (∀ p, translationHit (pyLower query) = some p →
      containsSub (pyLower query) p.1 = true
      ∧ ∃ l1 l2, TERM_TRANSLATIONS = l1 ++ p :: l2
          ∧ ∀ q ∈ l1, containsSub (pyLower query) q.1 = false)
    ∧ (∀ p, translationHit (pyLower query) = some p →
      (isProcessed (pyLower query) = true ∨ firstHorti (pyLower query) = none) →
      enhance query = p.2 ++ " " ++ query)
    ∧ (translationHit (pyLower query) = none →
      (isProcessed (pyLower query) = true ∨ firstHorti (pyLower query) = none) →
      enhance query = query)
    ∧ (∀ k, isProcessed (pyLower query) = false → firstHorti (pyLower query) = some k →
      enhance query = hintFor query k) := by
  refine ⟨?_, ?_, ?_, ?_⟩
  · intro p hp
    exact find?_eq_some_split _ _ _ hp
  · intro p hp hcase
    simp only [enhance]
    rw [hp]
    rcases hcase with hproc | hnone
    · rw [hproc]
      simp
    · cases hproc : isProcessed (pyLower query)
      · simp only [Bool.false_eq_true, if_false]
        rw [hnone]
      · simp
  · intro hp hcase
    simp only [enhance]
    rw [hp]
    rcases hcase with hproc | hnone
    · rw [hproc]
      simp
    · cases hproc : isProcessed (pyLower query)
      · simp only [Bool.false_eq_true, if_false]
        rw [hnone]
      · simp
  · intro k hproc hk
    simp only [enhance]
    rw [hproc, hk]
    simp

/-- C7 witness: for `"musarela"` the translation fires and no boost keyword
matches, so the enhanced query is the abbreviation followed by the query. -/
theorem c7_amended_enhancer_witness :
    enhance "musarela" = "queijo mussarela musarela" := by
  have h := (c7_amended_enhancer "musarela").2.1 ("musarela", "queijo mussarela")
    (by decide) (Or.inr (by decide))
  exact h.trans (by decide)

/-! ## Claim C8: low-confidence retry -/

/-- Invariant of the retry fold: the final pair is either the starting pair,
or the (non-empty) result set of one of the words, whose recorded top score
exceeds the starting best by more than 0.05. -/
theorem retry_fold_spec (assign : String → List Row) (words : List String)
    (b : List Row × ℚ) :
    List.foldl (retryStep assign) b words = b
    ∨ ∃ w ∈ words, (List.foldl (retryStep assign) b words).1 = assign w
        ∧ assign w ≠ []
        ∧ (List.foldl (retryStep assign) b words).2 = topScore (assign w)
        ∧ b.2 + 0.05 < (List.foldl (retryStep assign) b words).2 := by
  have hpos : (0 : ℚ) < 0.05 := by norm_num
  induction words generalizing b with
  | nil => exact Or.inl rfl
  | cons w ws ih =>
    rw [List.foldl_cons]
    by_cases hc : assign w ≠ [] ∧ b.2 + 0.05 < topScore (assign w)
    · have hb : retryStep assign b w = (assign w, topScore (assign w)) := by
        simp only [retryStep, if_pos hc]
      rw [hb]
      rcases ih (assign w, topScore (assign w)) with heq | ⟨w', hw', h1, hne, h2, h3⟩
      · right
        refine ⟨w, List.mem_cons_self _ _, ?_, hc.1, ?_, ?_⟩
        · rw [heq]
        · rw [heq]
        · rw [heq]
          exact hc.2
      · right
        refine ⟨w', List.mem_cons_of_mem _ hw', h1, hne, h2, ?_⟩
        have hlt : b.2 + 0.05 < topScore (assign w) := hc.2
        have h3' : topScore (assign w) + 0.05
            < (List.foldl (retryStep assign) (assign w, topScore (assign w)) ws).2 := h3
        linarith
    · have hb : retryStep assign b w = b := by
        simp only [retryStep, if_neg hc]
      rw [hb]
      rcases ih b with heq | ⟨w', hw', h1, hne, h2, h3⟩
      · exact Or.inl heq
      · exact Or.inr ⟨w', List.mem_cons_of_mem _ hw', h1, hne, h2, h3⟩

/-- The retry fold depends on the per-word assignment only through the words
actually tried. -/
theorem retry_fold_congr (assign assign2 : String → List Row) :
    ∀ (words : List String) (b : List Row × ℚ),
      (∀ w ∈ words, assign w = assign2 w) →
      List.foldl (retryStep assign) b words = List.foldl (retryStep assign2) b words := by
  intro words
  induction words with
  | nil => intro b _; rfl
  | cons w ws ih =>
    intro b h
    rw [List.foldl_cons, List.foldl_cons]
    have hw : assign w = assign2 w := h w (List.mem_cons_self _ _)
    have hstep : retryStep assign b w = retryStep assign2 b w := by
      simp only [retryStep, hw]
    rw [hstep]
    exact ih _ (fun x hx => h x (List.mem_cons_of_mem _ hx))

/-- The retry never replaces a non-empty working set by an empty one. -/
theorem retryResults_ne_nil (assign : String → List Row) (results : List Row)
    (words : List String) (h : results ≠ []) :
    retryResults assign results words ≠ [] := by
  rcases retry_fold_spec assign words (results, topScore results) with heq | ⟨w, _, h1, hne, _, _⟩
  · unfold retryResults
    rw [heq]
    exact h
  · unfold retryResults
    rw [h1]
    exact hne

/-- C8: the low-confidence retry starts from the original result set, replaces
it only by a word's result set whose top score strictly exceeds the current
best by more than 0.05, and — for a fixed assignment of per-word result sets —
is deterministic; when the retry triggers inside `search_products_vector`
(non-empty initial results with top score below 0.50 and at least one usable
word), the returned string is the formatting of exactly this fold. -/
theorem c8_retry_monotone_deterministic (assign assign2 : String → List Row)
    (results : List Row) (words : List String) :
    retryResults assign results [] = results
    ∧ (retryResults assign results words = results
      ∨ ∃ w ∈ words, retryResults assign results words = assign w
          ∧ topScore results + 0.05 < topScore (assign w))
    ∧ ((∀ w ∈ words, assign w = assign2 w) →
      retryResults assign results words = retryResults assign2 results words)
    ∧ (∀ (embedStr : String → String) (fetch : String → String → List Row) (query0 : String),
        pyStrip query0 ≠ "" →
        fetch (enhance (pyStrip query0)) (embedStr (enhance (pyStrip query0))) ≠ [] →
        topScore (fetch (enhance (pyStrip query0))
          (embedStr (enhance (pyStrip query0)))) < 0.50 →
        retryWords (pyStrip query0) ≠ [] →
        search_products_vector embedStr fetch query0
          = (formatResults (retryResults (fun w => fetch (embedStr w) (embedStr w))
              (fetch (enhance (pyStrip query0)) (embedStr (enhance (pyStrip query0))))
              (retryWords (pyStrip query0))),
             enhance (pyStrip query0) :: retryWords (pyStrip query0))) := by
  refine ⟨rfl, ?_, ?_, ?_⟩
  · rcases retry_fold_spec assign words (results, topScore results)
      with heq | ⟨w, hw, h1, _, h2, h3⟩
    · left
      unfold retryResults
      rw [heq]
    · right
      refine ⟨w, hw, ?_, ?_⟩
      · unfold retryResults
        rw [h1]
      · rw [h2] at h3
        exact h3
  · intro h
    unfold retryResults
    rw [retry_fold_congr assign assign2 words _ h]
  · intro embedStr fetch query0 hq hres htop hwords
    have hrr : fetch (enhance (pyStrip query0)) (embedStr (enhance (pyStrip query0))) ≠ []
        ∧ topScore (fetch (enhance (pyStrip query0))
            (embedStr (enhance (pyStrip query0)))) < 0.50
        ∧ retryWords (pyStrip query0) ≠ [] := ⟨hres, htop, hwords⟩
    have hnil := retryResults_ne_nil (fun w => fetch (embedStr w) (embedStr w))
      (fetch (enhance (pyStrip query0)) (embedStr (enhance (pyStrip query0))))
      (retryWords (pyStrip query0)) hres
    simp only [search_products_vector]
    rw [if_neg hq]
    rw [if_pos hrr]
    rw [if_pos hrr]
    rw [if_neg hnil]

/-- C8 witness: two assignments agreeing on the tried word produce the same
final result set. -/
theorem c8_retry_monotone_deterministic_witness :
    retryResults (fun w => if w = "caju" then [⟨"r", ⟨none, none, none, none⟩, 0⟩] else [])
        [⟨"q", ⟨none, none, none, none⟩, 0⟩] ["caju"]
      = retryResults (fun w => if containsSub w "caju" then
          [⟨"r", ⟨none, none, none, none⟩, 0⟩] else [])
        [⟨"q", ⟨none, none, none, none⟩, 0⟩] ["caju"] := by
  exact (c8_retry_monotone_deterministic
    (fun w => if w = "caju" then [⟨"r", ⟨none, none, none, none⟩, 0⟩] else [])
    (fun w => if containsSub w "caju" then [⟨"r", ⟨none, none, none, none⟩, 0⟩] else [])
    [⟨"q", ⟨none, none, none, none⟩, 0⟩] ["caju"]).2.2.1 (by decide)

/-! ## Claim C9: result formatter -/

/-- Specification-side deduplication: first occurrence per non-empty
identifier, given the identifiers already seen. -/
def dedupFrom (seen : List String) : List (String × String) → List (String × String)
  | [] => []
  | p :: ps =>
    if p.1 = "" ∨ seen.contains p.1 then dedupFrom seen ps
    else p :: dedupFrom (p.1 :: seen) ps

/-- Specification-side numbering: one line per pair, numbered from `n`. -/
def numberedFrom (n : ℕ) : List (String × String) → List String
  | [] => []
  | p :: ps => lineFor n p :: numberedFrom (n + 1) ps

/-- Numbering `numberedFrom` emits one line per pair. -/
theorem numberedFrom_length : ∀ (n : ℕ) (l : List (String × String)),
    (numberedFrom n l).length = l.length := by
  intro n l
  induction l generalizing n with
  | nil => rfl
  | cons p ps ih => simp [numberedFrom, ih]

/-- Characterization of the `_format_results` fold, provided every extracted
non-empty identifier comes with a non-empty display name: the emitted lines
are the deduplicated pairs numbered consecutively after the lines already
present. -/
theorem fmt_fold_spec :
    ∀ (rows : List Row) (lines seen : List String),
      (∀ r ∈ rows, (extractEanName r).1 ≠ "" → (extractEanName r).2 ≠ "") →
      List.foldl fmtStep (lines, seen) rows
        = (lines ++ numberedFrom (seen.length + 1) (dedupFrom seen (rows.map extractEanName)),
           ((dedupFrom seen (rows.map extractEanName)).map Prod.fst).reverse ++ seen) := by
  intro rows
  induction rows with
  | nil =>
    intro lines seen _
    simp [dedupFrom, numberedFrom]
  | cons r rs ih =>
    intro lines seen H
    rw [List.foldl_cons, List.map_cons]
    by_cases hc : (extractEanName r).1 = "" ∨ seen.contains (extractEanName r).1
    · have hstep : fmtStep (lines, seen) r = (lines, seen) := by
        simp only [fmtStep, if_pos hc]
      rw [hstep]
      have hd : dedupFrom seen (extractEanName r :: rs.map extractEanName)
          = dedupFrom seen (rs.map extractEanName) := by
        simp only [dedupFrom, if_pos hc]
      rw [hd]
      exact ih lines seen (fun x hx => H x (List.mem_cons_of_mem _ hx))
    · have hne1 : (extractEanName r).1 ≠ "" := by
        intro h1
        exact hc (Or.inl h1)
      have hne2 : (extractEanName r).2 ≠ "" := H r (List.mem_cons_self _ _) hne1
      have hstep : fmtStep (lines, seen) r
          = (lines ++ [lineFor (seen.length + 1) (extractEanName r)],
             (extractEanName r).1 :: seen) := by
        simp only [fmtStep, if_neg hc, if_pos (And.intro hne1 hne2), List.length_cons]
      rw [hstep]
      have hd : dedupFrom seen (extractEanName r :: rs.map extractEanName)
          = extractEanName r
            :: dedupFrom ((extractEanName r).1 :: seen) (rs.map extractEanName) := by
        simp only [dedupFrom, if_neg hc]
      rw [hd]
      rw [ih _ _ (fun x hx => H x (List.mem_cons_of_mem _ hx))]
      simp [numberedFrom, List.append_assoc, Nat.add_assoc, Nat.add_comm 1 1]

/-- C9 counterexample: a row whose extracted identifier has an empty display
name consumes the identifier but emits no line, so the single emitted line of
the second row is numbered `2`, not `1`. -/
theorem c9_counterexample :
    extractEanName ⟨"", ⟨some "1", none, none, none⟩, 0⟩ = ("1", "")
    ∧ formatResults [⟨"", ⟨some "1", none, none, none⟩, 0⟩,
        ⟨"", ⟨some "2", none, some "B", none⟩, 0⟩]
      = "EANS_ENCONTRADOS:\n2) 2 - B"
    ∧ "EANS_ENCONTRADOS:\n2) 2 - B" ≠ "EANS_ENCONTRADOS:\n1) 2 - B" := by decide

/-- C9 (amended): provided every row with a usable (non-empty) extracted
identifier also yields a non-empty display name, the formatter emits exactly
one line per distinct identifier — at its first occurrence, in input order —
numbered sequentially from 1, and returns the explicit no-valid-results
message when no such row exists. -/
theorem c9_amended_format_dedup (rows : List Row)
    (H : ∀ r ∈ rows, (extractEanName r).1 ≠ "" → (extractEanName r).2 ≠ "") :
    (dedupFrom [] (rows.map extractEanName) = [] →
      formatResults rows = "Nenhum produto com EAN válido encontrado.")
    ∧ (dedupFrom [] (rows.map extractEanName) ≠ [] →
      formatResults rows
        = joinWith "\n" ("EANS_ENCONTRADOS:"
            :: numberedFrom 1 (dedupFrom [] (rows.map extractEanName)))) := by
  have hfold := fmt_fold_spec rows ["EANS_ENCONTRADOS:"] [] H
  constructor
  · intro hd
    unfold formatResults
    rw [hfold, hd]
    simp [numberedFrom]
  · intro hd
    unfold formatResults
    rw [hfold]
    have hlen : (["EANS_ENCONTRADOS:"]
        ++ numberedFrom (List.length ([] : List String) + 1)
          (dedupFrom [] (rows.map extractEanName))).length ≠ 1 := by
      rw [List.length_append, numberedFrom_length]
      have : (dedupFrom [] (rows.map extractEanName)).length ≠ 0 := by
        intro h0
        exact hd (List.length_eq_zero.mp h0)
      simp only [List.length_singleton]
      omega
    rw [if_neg hlen]
    rfl

/-- C9 witness: a duplicate identifier is emitted once, at its first
occurrence, and lines are numbered from 1. -/
theorem c9_amended_format_dedup_witness :
    formatResults [⟨"", ⟨some "1", none, some "A", none⟩, 0⟩,
        ⟨"", ⟨some "1", none, some "A2", none⟩, 0⟩,
        ⟨"", ⟨some "2", none, some "B", none⟩, 0⟩]
      = "EANS_ENCONTRADOS:\n1) 1 - A\n2) 2 - B" := by
  have h := (c9_amended_format_dedup [⟨"", ⟨some "1", none, some "A", none⟩, 0⟩,
      ⟨"", ⟨some "1", none, some "A2", none⟩, 0⟩,
      ⟨"", ⟨some "2", none, some "B", none⟩, 0⟩] (by decide)).2 (by decide)
  exact h.trans (by decide)

/-! ## Claim C10: empty index result short-circuits the retry -/

/-- C10: when the hybrid index call returns zero rows for a non-empty query,
the search returns the explicit no-results message immediately and the only
embedding call made is the one for the enhanced query — the per-word retry
never runs. -/
theorem c10_empty_results_no_retry (embedStr : String → String)
    (fetch : String → String → List Row) (query0 : String)
    (hq : pyStrip query0 ≠ "")
    (hz : fetch (enhance (pyStrip query0)) (embedStr (enhance (pyStrip query0))) = []) :
    search_products_vector embedStr fetch query0
      = ("Nenhum produto encontrado com esse termo.", [enhance (pyStrip query0)]) := by
  have hng : ¬(fetch (enhance (pyStrip query0)) (embedStr (enhance (pyStrip query0))) ≠ []
      ∧ topScore (fetch (enhance (pyStrip query0))
          (embedStr (enhance (pyStrip query0)))) < 0.50
      ∧ retryWords (pyStrip query0) ≠ []) := fun h => h.1 hz
  simp only [search_products_vector]
  rw [if_neg hq]
  rw [if_neg hng]
  rw [if_neg hng]
  rw [if_pos hz]

/-- C10 witness: a fetch returning no rows for the query `"arroz"`. -/
theorem c10_empty_results_no_retry_witness :
    search_products_vector (fun s => s) (fun _ _ => []) "arroz"
      = ("Nenhum produto encontrado com esse termo.", ["arroz"]) := by
  have h := c10_empty_results_no_retry (fun s => s) (fun _ _ => []) "arroz"
    (by decide) rfl
  exact h.trans (by decide)
